import Mathlib

/-
Verification of the hagadias derived-property engine (qudobject_props.py).

The Python source is shallowly embedded: each property or helper method of
QudObjectProps becomes a Lean function over an explicit `Entity` record that
models the field lookups the code performs through the inheritance store
(getattr on composed names, per the external-interface contract of the spec).
Python runtime exceptions (TypeError, ValueError, KeyError, AttributeError)
are modelled with `Except PyErr`; Python floats are modelled exactly as
rationals; Python `//` is `Int.fdiv` (floor division), Python `int()` applied
to a float truncates toward zero.  String parsing and splitting are
implemented structurally over character lists, mirroring `int(...)` and
`str.split`.  The dice-expression evaluator (dicebag), the
level-scaled-value resolver (svalue), the stat-name table (character_codes)
and the hardcoded charge tables (constants) are not part of the sources at
hand; they are modelled from the specification and marked as such in their
doc comments.
-/

/-- Python runtime errors that the embedded code can raise. -/
inductive PyErr where
  | typeError
  | valueError
  | keyError
  | attributeError
  | recursionError
  | indexError
  | malformedExpression
  deriving Repr, DecidableEq

/-- Floor of a rational, computed from its normalized numerator/denominator. -/
def ratFloor (q : ℚ) : Int := q.num.fdiv q.den

/-- Ceiling of a rational (`math.ceil`). -/
def ratCeil (q : ℚ) : Int := -ratFloor (-q)

/-- Python `int()` applied to a float: truncation toward zero. -/
def pyIntTrunc (q : ℚ) : Int := if 0 ≤ q then ratFloor q else ratCeil q

theorem ratFloor_eq_floor (q : ℚ) : ratFloor q = ⌊q⌋ := by
  rw [ratFloor, Int.fdiv_eq_ediv _ (Int.ofNat_nonneg _), Rat.floor_def]

theorem ratCeil_eq_ceil (q : ℚ) : ratCeil q = ⌈q⌉ := by
  rw [ratCeil, ratFloor_eq_floor, Int.floor_neg, neg_neg]

theorem ratFloor_eval (q : ℚ) (n : Int) (h1 : (n : ℚ) ≤ q) (h2 : q < n + 1) :
    ratFloor q = n := by
  rw [ratFloor_eq_floor]
  exact Int.floor_eq_iff.mpr ⟨h1, by exact_mod_cast h2⟩

theorem ratCeil_eval (q : ℚ) (n : Int) (h1 : (n : ℚ) - 1 < q) (h2 : q ≤ n) :
    ratCeil q = n := by
  rw [ratCeil_eq_ceil]
  exact Int.ceil_eq_iff.mpr ⟨by exact_mod_cast h1, h2⟩

theorem pyIntTrunc_eval_nonneg (q : ℚ) (n : Int) (h0 : 0 ≤ q)
    (h1 : (n : ℚ) ≤ q) (h2 : q < n + 1) : pyIntTrunc q = n := by
  rw [pyIntTrunc, if_pos h0]
  exact ratFloor_eval q n h1 h2

theorem pyIntTrunc_eval_neg (q : ℚ) (n : Int) (h0 : ¬ 0 ≤ q)
    (h1 : (n : ℚ) - 1 < q) (h2 : q ≤ n) : pyIntTrunc q = n := by
  rw [pyIntTrunc, if_neg h0]
  exact ratCeil_eval q n h1 h2

/-- Python truthiness of an optional string: present and non-empty. -/
def truthyS (s : Option String) : Bool :=
  match s with
  | none => false
  | some s => s ≠ ""

/-- The numeric value of a decimal digit character. -/
def digitVal (c : Char) : Option Nat :=
  if 48 ≤ c.toNat && c.toNat ≤ 57 then some (c.toNat - 48) else none

/-- Accumulating decimal parser over a character list. -/
def parseDigitsAux (acc : Nat) : List Char → Option Nat
  | [] => some acc
  | c :: cs =>
    match digitVal c with
    | none => none
    | some d => parseDigitsAux (acc * 10 + d) cs

/-- Parse an optionally negated decimal integer from a character list
(`int(...)` on a string; `none` models `ValueError`). -/
def parseIntL : List Char → Option Int
  | [] => none
  | c :: cs =>
    if c == '-' then
      match cs with
      | [] => none
      | _ => (parseDigitsAux 0 cs).map (fun n => -(n : Int))
    else (parseDigitsAux 0 (c :: cs)).map (fun n => (n : Int))

/-- Parse an integer from a string. -/
def strToInt (s : String) : Option Int := parseIntL s.data

/-- Split a character list on a separator character (`str.split(sep)`). -/
def splitOnChar (c : Char) : List Char → List (List Char)
  | [] => [[]]
  | x :: xs =>
    match splitOnChar c xs with
    | [] => [[]]
    | y :: ys => if x == c then [] :: y :: ys else (x :: y) :: ys

/-- Membership of a character in a character list. -/
def charIn (c : Char) (l : List Char) : Bool := l.any (fun x => x == c)

/-- Whether the second list begins with the first list. -/
def beginsWith : List Char → List Char → Bool
  | [], _ => true
  | _ :: _, [] => false
  | a :: as, b :: bs => a == b && beginsWith as bs

/-- Substring search over character lists. -/
def containsSubAux (needle : List Char) : List Char → Bool
  | [] => beginsWith needle []
  | x :: xs => beginsWith needle (x :: xs) || containsSubAux needle xs

/-- Substring test (`needle in hay`). -/
def containsSub (hay needle : String) : Bool := containsSubAux needle.data hay.data

/-- Python `int(x)` on an optional string: `TypeError` on `None`,
`ValueError` on an unparseable string. -/
def pyInt (s : Option String) : Except PyErr Int :=
  match s with
  | none => .error .typeError
  | some s =>
    match strToInt s with
    | none => .error .valueError
    | some n => .ok n

/-- `int_or_none` from helpers: `None` maps to `None`, otherwise `int(x)`
(raising `ValueError` on an unparseable string). -/
def int_or_none (s : Option String) : Except PyErr (Option Int) :=
  match s with
  | none => .ok none
  | some s =>
    match strToInt s with
    | none => .error .valueError
    | some n => .ok (some n)

/-- Modelled from the spec (dicebag.py is not among the sources): an
immutable dice expression — a flat literal, an "N-M" uniform range, or an
"AdB+C" dice roll. -/
inductive DiceExpr where
  | lit (n : Int)
  | range (n m : Int)
  | dice (a b c : Int)
  deriving Repr, DecidableEq

/-- Modelled from the spec: minimum of a dice expression. -/
def DiceExpr.minVal : DiceExpr → ℚ
  | .lit n => n
  | .range n _ => n
  | .dice a _ c => a * 1 + c

/-- Modelled from the spec: maximum of a dice expression. -/
def DiceExpr.maxVal : DiceExpr → ℚ
  | .lit n => n
  | .range _ m => m
  | .dice a b c => a * b + c

/-- Modelled from the spec: average of a dice expression. -/
def DiceExpr.avgVal : DiceExpr → ℚ
  | .lit n => n
  | .range n m => (n + m) / 2
  | .dice a b c => a * ((b + 1 : ℚ) / 2) + c

/-- Modelled from the spec: the DiceBag parser for the three supported
forms — a flat integer, "AdB"/"AdB+C"/"AdB-C", and "N-M". A string matching
none of them is a `MalformedExpression`. -/
def diceParse (s : String) : Option DiceExpr :=
  match parseIntL s.data with
  | some n => some (.lit n)
  | none =>
    if charIn 'd' s.data then
      match splitOnChar 'd' s.data with
      | [a, rest] =>
        match parseIntL a with
        | none => none
        | some av =>
          if charIn '+' rest then
            match splitOnChar '+' rest with
            | [b, c] =>
              match parseIntL b, parseIntL c with
              | some bv, some cv => some (.dice av bv cv)
              | _, _ => none
            | _ => none
          else if charIn '-' rest then
            match splitOnChar '-' rest with
            | [b, c] =>
              match parseIntL b, parseIntL c with
              | some bv, some cv => some (.dice av bv (-cv))
              | _, _ => none
            | _ => none
          else
            match parseIntL rest with
            | none => none
            | some bv => some (.dice av bv 0)
      | _ => none
    else
      match splitOnChar '-' s.data with
      | [n, m] =>
        match parseIntL n, parseIntL m with
        | some nv, some mv => some (.range nv mv)
        | _, _ => none
      | _ => none

/-- Modelled from the spec (svalue.py is not among the sources): a tiered
specification is a comma-separated list of dice strings, one tier per five
levels; the resolver selects the highest tier threshold at or below the
given level, clamped to the nearest available tier. -/
def sValueResolve (spec : String) (level : Int) : String :=
  let tiers := splitOnChar ',' spec.data
  let idx : Nat := min (max 0 ((level - 1).fdiv 5)).toNat (tiers.length - 1)
  String.mk (tiers.getD idx [])

/-- Modelled from the spec (character_codes.py is not among the sources):
the six core attribute names recognized for the minion boost reduction. -/
def STAT_NAMES : List String :=
  ["Strength", "Agility", "Toughness", "Intelligence", "Willpower", "Ego"]

/-- A part entry as found in `all_attributes['part']`, with the two
sub-attributes the charge computations read. -/
structure PartData where
  chargeUse : Option String := none
  nameForStatus : Option String := none

/-- The slice of a game object that the verified properties read.  Fields
mirror the composed-name lookups of the Python code (`stat_{attr}_sValue`,
`part_Armor_{attr}`, ...), resolved through the external inheritance store;
function-valued fields model the dynamic `getattr` interface. -/
structure Entity where
  name : String := ""
  role : Option String := none
  statSValue : String → Option String := fun _ => none
  statValue : String → Option String := fun _ => none
  statBoost : String → Option String := fun _ => none
  part_Physics_Takeable : Option String := none
  hasGasPart : Bool := false
  hasCombatPart : Bool := false
  hasBrainPart : Bool := false
  part_Brain_Mobile : Option String := none
  inheritsArmor : Bool := false
  hasArmorPart : Bool := false
  part_Armor : String → Option String := fun _ => none
  part_Shield : String → Option String := fun _ => none
  hasMentalShieldPart : Bool := false
  hasRoboticizedPart : Bool := false
  part_Roboticized_ChanceOneIn : Option String := none
  mutation : List (String × String) := []
  inventory : List String := []
  parts : List (String × PartData) := []
  skill_Acrobatics_Dodge : Option String := none
  skill_Acrobatics_Tumble : Option String := none
  hasMissileWeaponPart : Bool := false
  hasAmmoArrowPart : Bool := false
  loaderProjectile : String → Option String := fun _ => none
  hasOmniphaseProjectilePart : Bool := false
  hasOmniphaseTag : Bool := false
  tierTagSpecified : Bool := false
  tag_Tier_Value : Option String := none
  bitsSpecified : Bool := false
  part_TinkerItem_Bits : Option String := none

/-- `active_or_inactive_character`: 0 none, 1 active, 2 inactive. -/
def active_or_inactive_character (e : Entity) : Int :=
  if (e.part_Physics_Takeable == some "false" ||
      e.part_Physics_Takeable == some "False") && !e.hasGasPart then
    if e.hasCombatPart && e.hasBrainPart then 1 else 2
  else 0

/-- The `lv` property: `stat_Level_sValue`, falling back to
`stat_Level_Value`. -/
def lv (e : Entity) : Option String :=
  match e.statSValue "Level" with
  | some s => some s
  | none => e.statValue "Level"

/-- The level used by `attribute_helper`: `int(self.lv)`, recovering from a
range string by taking its first component; `TypeError` when `lv` is absent,
uncaught `ValueError` when neither parse succeeds. -/
def attributeLevel (e : Entity) : Except PyErr Int :=
  match lv e with
  | none => .error .typeError
  | some s =>
    match strToInt s with
    | some n => .ok n
    | none =>
      match parseIntL ((splitOnChar '-' s.data).headD []) with
      | some n => .ok n
      | none => .error .valueError

/-- `attribute_helper`: the raw dice string for an attribute — for an active
character the level-scaled field (resolved at the effective level) else the
flat field; for something inheriting from Armor the dedicated
`part_Armor_{attr}` field; otherwise absent. -/
def attribute_helper (e : Entity) (attr : String) : Except PyErr (Option String) :=
  if active_or_inactive_character e == 1 then
    if truthyS (e.statSValue attr) then
      match attributeLevel e with
      | .error err => .error err
      | .ok level => .ok (some (sValueResolve ((e.statSValue attr).getD "") level))
    else if truthyS (e.statValue attr) then
      .ok (e.statValue attr)
    else
      .ok none
  else if e.inheritsArmor then
    .ok (e.part_Armor attr)
  else
    .ok none

/-- `attribute_boost_factor`: the multiplier derived from the integer Boost
tier, only for an active character whose attribute has a level-scaled raw
value; minion-role entities have the tier reduced by one for core attribute
names; positive tiers give `0.25*t + 1.0`, other tiers `0.20*t + 1.0`. -/
def attribute_boost_factor (e : Entity) (attr : String) : Option ℚ :=
  if active_or_inactive_character e == 1 then
    match (e.statBoost attr).bind strToInt with
    | none => none
    | some boost =>
      if truthyS (e.statSValue attr) then
        let boost := if e.role == some "Minion" && STAT_NAMES.contains attr then
          boost - 1 else boost
        if boost > 0 then some ((1/4 : ℚ) * boost + 1)
        else some ((1/5 : ℚ) * boost + 1)
      else none
  else none

/-- `attribute_helper_min_max_or_avg`: evaluate the raw dice string, apply
the boost factor when present (each endpoint rounded up independently, the
boosted average being the truncated midpoint of the two rounded
endpoints). -/
def attribute_helper_min_max_or_avg (e : Entity) (attr : String) (mode : String) :
    Except PyErr (Option Int) :=
  match attribute_helper e attr with
  | .error err => .error err
  | .ok none => .ok none
  | .ok (some valStr) =>
    match diceParse valStr with
    | none => .error .malformedExpression
    | some dice =>
      match attribute_boost_factor e attr with
      | none =>
        if mode == "min" then .ok (some (pyIntTrunc dice.minVal))
        else if mode == "max" then .ok (some (pyIntTrunc dice.maxVal))
        else .ok (some (pyIntTrunc dice.avgVal))
      | some factor =>
        let minV := ratCeil (dice.minVal * factor)
        if mode == "min" then .ok (some minV)
        else
          let maxV := ratCeil (dice.maxVal * factor)
          if mode == "max" then .ok (some maxV)
          else .ok (some (pyIntTrunc (((minV + maxV : Int) : ℚ) / 2)))

/-- `attribute_helper_mod`: the attribute modifier
`(resolvedValue - 16) // 2` (Python floor division). -/
def attribute_helper_mod (e : Entity) (attr : String) (statmode : String) :
    Except PyErr (Option Int) :=
  match (if statmode == "min" then attribute_helper_min_max_or_avg e attr "min"
         else if statmode == "max" then attribute_helper_min_max_or_avg e attr "max"
         else attribute_helper_min_max_or_avg e attr "avg") with
  | .error err => .error err
  | .ok none => .ok none
  | .ok (some val) => .ok (some ((val - 16).fdiv 2))

/-- `hasmentalshield`: true (for an active character) when a MentalShield
part is present, the name contains "Mechanical", or the entity is fully
roboticized.  Python returns `True` or `None`; callers only test
truthiness, so the property is modelled as `Bool`. -/
def hasmentalshield (e : Entity) : Bool :=
  active_or_inactive_character e == 1 &&
    (e.hasMentalShieldPart || containsSub e.name "Mechanical" ||
      (e.hasRoboticizedPart && e.part_Roboticized_ChanceOneIn == some "1"))

/-- The `ma` property: absent behind a mental shield, 0 for an inactive
character, else base 4 plus the MA stat field plus the Willpower modifier
(`ma += None` raising `TypeError` when Willpower is unresolvable). -/
def ma (e : Entity) : Except PyErr (Option Int) :=
  if hasmentalshield e then .ok none
  else if active_or_inactive_character e == 2 then .ok (some 0)
  else if active_or_inactive_character e == 1 then
    match (if truthyS (e.statValue "MA") then pyInt (e.statValue "MA") else .ok 0) with
    | .error err => .error err
    | .ok m0 =>
      match attribute_helper_mod e "Willpower" "avg" with
      | .error err => .error err
      | .ok none => .error .typeError
      | .ok (some w) => .ok (some (4 + m0 + w))
  else .ok none

/-- The `wornon` property: the Shield WornOn field, overridden by the Armor
WornOn field, with a manual fix for the Hooks item. -/
def wornon (e : Entity) : Option String :=
  let w := if truthyS (e.part_Shield "WornOn") then e.part_Shield "WornOn" else none
  let w := if truthyS (e.part_Armor "WornOn") then e.part_Armor "WornOn" else w
  if e.name == "Hooks" then some "Feet" else w

/-- The AV contributions of the entity's mutations, together with the flag
recording whether a body-slot mutation (Carapace or Quills) fired. -/
def avMutations : List (String × String) → Except PyErr (Int × Bool)
  | [] => .ok (0, false)
  | (nm, lvl) :: rest =>
    let contrib : Except PyErr (Int × Bool) :=
      if nm == "Carapace" then
        match strToInt lvl with
        | none => .error .valueError
        | some l => .ok (l.fdiv 2 + 3, true)
      else if nm == "Quills" then
        match strToInt lvl with
        | none => .error .valueError
        | some l => .ok (l.fdiv 3 + 2, true)
      else if nm == "Horns" then
        match strToInt lvl with
        | none => .error .valueError
        | some l => .ok ((l - 1).fdiv 3 + 1, false)
      else if nm == "MultiHorns" then
        match strToInt lvl with
        | none => .error .valueError
        | some l => .ok ((l + 1).fdiv 4, false)
      else if nm == "SlogGlands" then .ok (1, false)
      else .ok (0, false)
    match contrib with
    | .error err => .error err
    | .ok (c, f) =>
      match avMutations rest with
      | .error err => .error err
      | .ok (rc, rf) => .ok (c + rc, f || rf)

/-- Whether an inventory entry name is a placeholder (first character one of
the reserved markers). -/
def markerName (s : String) : Bool :=
  match s.data.head? with
  | some c => c == '*' || c == '#' || c == '@'
  | none => false

/-- The shared inventory-aggregation loop of `av` and `dv`: placeholder
names are skipped, each remaining name resolves through the index
(`KeyError` when missing), and a resolved item contributes its own derived
stat when that stat is truthy and the item is not excluded as occupying the
Body slot while a body-slot mutation bonus already fired. -/
def invLoop (q : String → Option Entity) (f : Entity → Except PyErr (Option Int))
    (bodyFlag : Bool) : List String → Except PyErr Int
  | [] => .ok 0
  | nm :: rest =>
    if markerName nm then invLoop q f bodyFlag rest
    else
      match q nm with
      | none => .error .keyError
      | some item =>
        match f item with
        | .error err => .error err
        | .ok iv =>
          let c : Int :=
            match iv with
            | some v =>
              if v != 0 && (!bodyFlag || wornon item != some "Body") then v else 0
            | none => 0
          match invLoop q f bodyFlag rest with
          | .error err => .error err
          | .ok r => .ok (c + r)

/-- The `av` property, with a fuel bound on the recursion through worn
items.  An armor or shield AV field applies to items; a character takes
`int(stat_AV_Value)` (raising `TypeError` when the stat is absent at every
level of the inheritance chain), plus mutation bonuses, plus worn-item AV
under the body-slot exclusion. -/
def av (q : String → Option Entity) : Nat → Entity → Except PyErr (Option Int)
  | 0, _ => .error .recursionError
  | fuel + 1, e =>
    if active_or_inactive_character e > 0 then
      match pyInt (e.statValue "AV") with
      | .error err => .error err
      | .ok base =>
        match avMutations e.mutation with
        | .error err => .error err
        | .ok (mutB, bodyFlag) =>
          match invLoop q (fun it => av q fuel it) bodyFlag e.inventory with
          | .error err => .error err
          | .ok inv => .ok (some (base + mutB + inv))
    else
      let s := if truthyS (e.part_Shield "AV") then e.part_Shield "AV"
               else if truthyS (e.part_Armor "AV") then e.part_Armor "AV"
               else none
      match s with
      | none => .ok none
      | some s =>
        match strToInt s with
        | none => .error .valueError
        | some v => .ok (some v)

/-- The DV contributions of the entity's mutations (Carapace subtracts 2 and
marks the body-slot flag). -/
def dvMutations : List (String × String) → Int × Bool
  | [] => (0, false)
  | (nm, _) :: rest =>
    let (rc, rf) := dvMutations rest
    if nm == "Carapace" then (rc - 2, true) else (rc, rf)

/-- The `dv` property, with a fuel bound on the recursion through worn
items.  Armor/shield DV fields override; an inactive character has -10; an
active character starts from 6, adds the DV stat, skill bonuses, the
Agility modifier (`dv += None` raising `TypeError` when Agility is
unresolvable), mutation contributions, and worn-item DV under the body-slot
exclusion. -/
def dv (q : String → Option Entity) : Nat → Entity → Except PyErr (Option Int)
  | 0, _ => .error .recursionError
  | fuel + 1, e =>
    match (match e.part_Armor "DV" with
           | none => Except.ok (none : Option Int)
           | some s =>
             match strToInt s with
             | none => .error PyErr.valueError
             | some v => .ok (some v)) with
    | .error err => .error err
    | .ok dvArmor =>
      if (e.part_Shield "DV").isSome then
        match strToInt ((e.part_Shield "DV").getD "") with
        | none => .error .valueError
        | some v => .ok (some v)
      else if active_or_inactive_character e == 2 then .ok (some (-10))
      else if active_or_inactive_character e == 1 then
        if (e.part_Brain_Mobile).isSome &&
           (e.part_Brain_Mobile == some "false" || e.part_Brain_Mobile == some "False") then
          .ok (some (-10))
        else
          match (match e.statValue "DV" with
                 | none => Except.ok (0 : Int)
                 | some s =>
                   match strToInt s with
                   | none => .error PyErr.valueError
                   | some v => .ok v) with
          | .error err => .error err
          | .ok statDV =>
            let sk := (if truthyS e.skill_Acrobatics_Dodge then 2 else 0) +
                      (if truthyS e.skill_Acrobatics_Tumble then 1 else 0)
            match attribute_helper_mod e "Agility" "avg" with
            | .error err => .error err
            | .ok none => .error .typeError
            | .ok (some agiMod) =>
              let (mutD, bodyFlag) := dvMutations e.mutation
              match invLoop q (fun it => dv q fuel it) bodyFlag e.inventory with
              | .error err => .error err
              | .ok inv => .ok (some (6 + statDV + sk + agiMod + mutD + inv))
      else .ok dvArmor

/-- The charge-use sum of `chargeused`: every carried part except
ProgrammableRecoiler contributes its ChargeUse field when positive. -/
def sumCharges : List (String × PartData) → Except PyErr Int
  | [] => .ok 0
  | (nm, p) :: rest =>
    if nm == "ProgrammableRecoiler" then sumCharges rest
    else
      match p.chargeUse with
      | none => sumCharges rest
      | some s =>
        match strToInt s with
        | none => .error .valueError
        | some v =>
          match sumCharges rest with
          | .error err => .error err
          | .ok r => .ok ((if v > 0 then v else 0) + r)

/-- The `chargeused` property: the part-wise charge sum, replaced by the
hardcoded name-keyed override when one exists (the override table from
constants.py is not among the sources and is passed as explicit mapping
data, as the spec prescribes); a non-positive total resolves to absent. -/
def chargeused (overrides : List (String × Int)) (e : Entity) :
    Except PyErr (Option Int) :=
  match sumCharges e.parts with
  | .error err => .error err
  | .ok charge =>
    let charge := match overrides.lookup e.name with
                  | some v => v
                  | none => charge
    .ok (if charge > 0 then some charge else none)

/-- The functional label of a charge-consuming part in `chargefunction`:
the hardcoded name chain, then the part's NameForStatus field, then the
Chair special case, then the part type name itself. -/
def partFuncName (nm : String) (p : PartData) : String :=
  if nm == "StunOnHit" then "Stun effect"
  else if nm == "EnergyAmmoLoader" || nm == "Gaslight" then "Weapon Power"
  else if nm == "VibroWeapon" then "Adaptive Penetration"
  else if nm == "MechanicalWings" then "Flight"
  else if nm == "RocketSkates" then "Power Skate"
  else if nm == "GeomagneticDisc" then "Throw Effect"
  else if nm == "Teleporter" then "Teleportation"
  else if nm == "EquipStatBoost" then "Stat Boost"
  else if nm == "PartsGas" then "Gas Dispersion"
  else if nm == "ReduceCooldowns" then "Cooldown Reduction"
  else if nm == "RealityStabilization" then "Reality Stabilization"
  else if nm == "LatchesOn" then "Latch Effect"
  else if nm == "Toolbox" then "Tinker Bonus"
  else if nm == "ConversationScript" then "Audio Processing"
  else
    match p.nameForStatus with
    | some s => s
    | none => if nm == "Chair" then "Chair Effect" else nm

/-- The (simple, detailed) label pairs collected by `chargefunction` for
every contributing part, in part order. -/
def chargeFuncs : List (String × PartData) → Except PyErr (List (String × String))
  | [] => .ok []
  | (nm, p) :: rest =>
    if nm == "ProgrammableRecoiler" then chargeFuncs rest
    else
      match p.chargeUse with
      | none => chargeFuncs rest
      | some s =>
        match strToInt s with
        | none => .error .valueError
        | some v =>
          if v > 0 then
            let f := partFuncName nm p
            match chargeFuncs rest with
            | .error err => .error err
            | .ok r => .ok ((f, f ++ " [" ++ s ++ "]") :: r)
          else chargeFuncs rest

/-- The `chargefunction` property: the per-part labels, extended by the
hardcoded per-name reason when one exists; absent with no contributor, the
simple name with exactly one, and the comma-joined detailed labels with
more. -/
def chargefunction (overrides : List (String × Int)) (reasons : List (String × String))
    (e : Entity) : Except PyErr (Option String) :=
  match chargeFuncs e.parts with
  | .error err => .error err
  | .ok pairs =>
    let pairs := pairs ++
      (match reasons.lookup e.name with
       | some f =>
         match overrides.lookup e.name with
         | some v => [(f, f ++ " [" ++ toString v ++ "]")]
         | none => [(f, f)]
       | none => [])
    match pairs with
    | [] => .ok none
    | [p] => .ok (some p.1)
    | _ => .ok (some (String.intercalate ", " (pairs.map Prod.snd)))

/-- The additive mutation contribution to `quickness`: -10 per ColdBlooded,
`2*Level + 13` per HeightenedSpeed. -/
def quickMut : List (String × String) → Except PyErr Int
  | [] => .ok 0
  | (nm, lvl) :: rest =>
    match (if nm == "HeightenedSpeed" then
             match strToInt lvl with
             | none => Except.error PyErr.valueError
             | some l => .ok (2 * l + 13)
           else if nm == "ColdBlooded" then .ok (-10)
           else .ok 0) with
    | .error err => .error err
    | .ok c =>
      match quickMut rest with
      | .error err => .error err
      | .ok r => .ok (c + r)

/-- The `quickness` property, transcribed with the Python conditional
expression exactly as it parses: when the mutation sum is nonzero the
return value is `(mutation_val + 100) if stat_Speed_Value is None else
int(stat_Speed_Value)`, so a present Speed stat is returned without the
mutation sum. -/
def quickness (e : Entity) : Except PyErr (Option Int) :=
  if active_or_inactive_character e == 1 then
    match quickMut e.mutation with
    | .error err => .error err
    | .ok mv =>
      if mv != 0 then
        match e.statValue "Speed" with
        | none => .ok (some (mv + 100))
        | some s =>
          match strToInt s with
          | none => .error .valueError
          | some v => .ok (some v)
      else int_or_none (e.statValue "Speed")
  else if e.hasArmorPart then int_or_none (e.part_Armor "SpeedBonus")
  else .ok none

/-- The loader part types tried, in priority order, by
`projectile_object`. -/
def loaderParts : List String :=
  ["BioAmmoLoader", "AmmoArrow", "MagazineAmmoLoader", "EnergyAmmoLoader",
   "LiquidAmmoLoader"]

/-- The first loader part whose ProjectileObject field is present and
non-empty. -/
def firstLoader (e : Entity) : List String → Option String
  | [] => none
  | p :: rest =>
    match e.loaderProjectile p with
    | some s => if s != "" then some s else firstLoader e rest
    | none => firstLoader e rest

/-- `projectile_object` (without a part attribute argument): for a
MissileWeapon or AmmoArrow holder, the entity named by the first resolvable
loader (`KeyError` when the name is not in the index); absent otherwise. -/
def projectile_object (q : String → Option Entity) (e : Entity) :
    Except PyErr (Option Entity) :=
  if e.hasMissileWeaponPart || e.hasAmmoArrowPart then
    match firstLoader e loaderParts with
    | none => .ok none
    | some nm =>
      match q nm with
      | none => .error .keyError
      | some ent => .ok (some ent)
  else .ok none

/-- The `omniphaseprojectile` property: dereferences the projectile lookup
unconditionally (`AttributeError` when it is absent), then reports True
when the projectile specifies the OmniphaseProjectile part or the Omniphase
tag, and absent otherwise. -/
def omniphaseprojectile (q : String → Option Entity) (e : Entity) :
    Except PyErr (Option Bool) :=
  match projectile_object q e with
  | .error err => .error err
  | .ok none => .error .attributeError
  | .ok (some p) =>
    if p.hasOmniphaseProjectilePart || p.hasOmniphaseTag then .ok (some true)
    else .ok none

/-- The `xpvalue` property: the level must parse as a scalar (a range-valued
level yields absent), then the XPValue field — the `*XP` marker scaling by
role, otherwise the field parsed as an integer. -/
def xpvalue (e : Entity) : Except PyErr (Option Int) :=
  match (lv e).bind strToInt with
  | none => .ok none
  | some level =>
    let xpField := if truthyS (e.statSValue "XPValue") then e.statSValue "XPValue"
                   else if truthyS (e.statValue "XPValue") then e.statValue "XPValue"
                   else none
    match xpField with
    | none => .ok none
    | some xp =>
      if xp == "*XP" then
        let role := (e.role).getD "Minion"
        if role == "Minion" then .ok (some (level * 10))
        else if role == "Leader" then .ok (some (level * 50))
        else if role == "Hero" then .ok (some (level * 100))
        else .ok (some (level * 25))
      else
        match strToInt xp with
        | none => .error .valueError
        | some v => .ok (some v)

/-- The `xptier` property: `level // 5`, absent when the level is missing or
range-valued. -/
def xptier (e : Entity) : Option Int :=
  match (lv e).bind strToInt with
  | none => none
  | some level => some (level.fdiv 5)

/-- The `tier` property: the tier tag when specified on the entity itself;
else for a tinkerable item the final digit of the bits code (0 when not a
digit, `IndexError` on an empty code); else `level // 5`, recovering a
range-valued level by its first number exactly as `attribute_helper` does
(uncaught `ValueError` when neither parse succeeds); else the inherited
tier tag. -/
def tier (e : Entity) : Except PyErr (Option Int) :=
  if !e.tierTagSpecified then
    if e.bitsSpecified then
      match (e.part_TinkerItem_Bits.getD "").data.getLast? with
      | none => .error .indexError
      | some c =>
        match digitVal c with
        | some d => .ok (some (d : Int))
        | none => .ok (some 0)
    else
      match lv e with
      | none => int_or_none e.tag_Tier_Value
      | some s =>
        match strToInt s with
        | some level => .ok (some (level.fdiv 5))
        | none =>
          match parseIntL ((splitOnChar '-' s.data).headD []) with
          | some level => .ok (some (level.fdiv 5))
          | none => .error .valueError
  else int_or_none e.tag_Tier_Value

/-- An active character matching the spec scenario: Strength sValue
resolving to "14-18" at level 10, Boost tier 2, non-minion. -/
def eSc : Entity := {
  part_Physics_Takeable := some "false"
  hasCombatPart := true
  hasBrainPart := true
  statSValue := fun a => if a == "Strength" then some "14-18" else none
  statValue := fun a => if a == "Level" then some "10" else none
  statBoost := fun a => if a == "Strength" then some "2" else none }

/-- An active character with raw Strength range 1-2 and Boost tier -10,
giving the negative boost factor -1. -/
def eNeg : Entity := {
  part_Physics_Takeable := some "false"
  hasCombatPart := true
  hasBrainPart := true
  statSValue := fun a => if a == "Strength" then some "1-2" else none
  statValue := fun a => if a == "Level" then some "1" else none
  statBoost := fun a => if a == "Strength" then some "-10" else none }

theorem boosted_min_max_avg (e : Entity) (attr s : String) (d : DiceExpr) (f : ℚ)
    (hs : attribute_helper e attr = .ok (some s))
    (hd : diceParse s = some d)
    (hf : attribute_boost_factor e attr = some f) :
    attribute_helper_min_max_or_avg e attr "min" = .ok (some (ratCeil (d.minVal * f))) ∧
    attribute_helper_min_max_or_avg e attr "max" = .ok (some (ratCeil (d.maxVal * f))) ∧
    attribute_helper_min_max_or_avg e attr "avg" =
      .ok (some (pyIntTrunc (((ratCeil (d.minVal * f) + ratCeil (d.maxVal * f) : Int) : ℚ) / 2))) := by
  unfold attribute_helper_min_max_or_avg
  rw [hs]
  dsimp only
  rw [hd]
  dsimp only
  rw [hf]
  norm_num
  refine ⟨fun h => absurd h (by decide), ?_⟩
  rw [if_neg (by decide), if_neg (by decide)]

/-- Claim C1, as frozen, is refuted at a concrete input: an active character
with raw range 1-2 and boost factor -1 resolves to boostedMin -1 and
boostedMax -2, and the code's average is the truncation -1, not the floor
floor((-1 + -2)/2) = -2 the claim requires. -/
theorem c1_counterexample :
    attribute_boost_factor eNeg "Strength" = some (-1) ∧
    attribute_helper_min_max_or_avg eNeg "Strength" "min" = .ok (some (-1)) ∧
    attribute_helper_min_max_or_avg eNeg "Strength" "max" = .ok (some (-2)) ∧
    attribute_helper_min_max_or_avg eNeg "Strength" "avg" = .ok (some (-1)) ∧
    ratFloor ((((-1) + (-2) : Int) : ℚ) / 2) = -2 ∧ ((-1 : Int) ≠ -2) := by
  have hf : attribute_boost_factor eNeg "Strength" = some (-1) := by
    have h0 : attribute_boost_factor eNeg "Strength" =
        some ((1/5 : ℚ) * ((-10 : Int) : ℚ) + 1) := rfl
    rw [h0]; norm_num
  obtain ⟨hmin, hmax, havg⟩ :=
    boosted_min_max_avg eNeg "Strength" "1-2" (.range 1 2) (-1) rfl (by decide) hf
  have e1 : ratCeil ((DiceExpr.range 1 2).minVal * (-1)) = -1 := by
    apply ratCeil_eval <;> norm_num [DiceExpr.minVal]
  have e2 : ratCeil ((DiceExpr.range 1 2).maxVal * (-1)) = -2 := by
    apply ratCeil_eval <;> norm_num [DiceExpr.maxVal]
  rw [e1] at hmin
  rw [e2] at hmax
  rw [e1, e2] at havg
  refine ⟨hf, hmin, hmax, ?_, ?_, by decide⟩
  · rw [havg]
    simp only [Except.ok.injEq, Option.some.injEq]
    apply pyIntTrunc_eval_neg <;> norm_num
  · apply ratFloor_eval <;> norm_num

/-- Claim C1 as amended: for every active character whose attribute resolves
to a raw dice value and that has a boost factor, the resolved average is the
midpoint of the independently rounded-up endpoints truncated toward zero,
which coincides with the claimed floor of the midpoint whenever the sum of
the rounded endpoints is nonnegative — in particular in every
positive-boost, positive-stat case such as the spec scenario raw 14-18 with
factor 1.5 giving min 21, max 27, average 24. -/
theorem c1_boosted_average (e : Entity) (attr s : String) (d : DiceExpr) (f : ℚ)
    (hs : attribute_helper e attr = .ok (some s))
    (hd : diceParse s = some d)
    (hf : attribute_boost_factor e attr = some f) :
    attribute_helper_min_max_or_avg e attr "avg" =
      .ok (some (pyIntTrunc (((ratCeil (d.minVal * f) + ratCeil (d.maxVal * f) : Int) : ℚ) / 2))) ∧
    (0 ≤ ratCeil (d.minVal * f) + ratCeil (d.maxVal * f) →
      attribute_helper_min_max_or_avg e attr "avg" =
        .ok (some (ratFloor (((ratCeil (d.minVal * f) + ratCeil (d.maxVal * f) : Int) : ℚ) / 2)))) := by
  have hmain := (boosted_min_max_avg e attr s d f hs hd hf).2.2
  refine ⟨hmain, fun hnn => ?_⟩
  rw [hmain]
  have hq : (0:ℚ) ≤ ((ratCeil (d.minVal * f) + ratCeil (d.maxVal * f) : Int) : ℚ) / 2 := by
    apply div_nonneg _ (by norm_num)
    exact_mod_cast hnn
  rw [pyIntTrunc, if_pos hq]

/-- Witness for C1: the spec scenario entity, hypotheses discharged at raw
range 14-18 and boost factor 3/2, resolving to average 24. -/
theorem c1_witness :
    attribute_helper eSc "Strength" = .ok (some "14-18") ∧
    attribute_helper_min_max_or_avg eSc "Strength" "avg" = .ok (some 24) := by
  have hf : attribute_boost_factor eSc "Strength" = some (3/2) := by
    have h0 : attribute_boost_factor eSc "Strength" =
        some ((1/4 : ℚ) * ((2 : Int) : ℚ) + 1) := rfl
    rw [h0]; norm_num
  have e1 : ratCeil ((DiceExpr.range 14 18).minVal * (3/2)) = 21 := by
    apply ratCeil_eval <;> norm_num [DiceExpr.minVal]
  have e2 : ratCeil ((DiceExpr.range 14 18).maxVal * (3/2)) = 27 := by
    apply ratCeil_eval <;> norm_num [DiceExpr.maxVal]
  have h := (c1_boosted_average eSc "Strength" "14-18" (.range 14 18) (3/2)
    rfl (by decide) hf).2 (by rw [e1, e2]; norm_num)
  rw [e1, e2] at h
  refine ⟨rfl, ?_⟩
  rw [h]
  simp only [Except.ok.injEq, Option.some.injEq]
  apply ratFloor_eval <;> norm_num

theorem min_max_or_avg_mode_default (e : Entity) (attr mode : String)
    (h1 : (mode == "min") = false) (h2 : (mode == "max") = false) :
    attribute_helper_min_max_or_avg e attr mode =
      attribute_helper_min_max_or_avg e attr "avg" := by
  unfold attribute_helper_min_max_or_avg
  cases hH : attribute_helper e attr with
  | error err => rfl
  | ok o =>
    cases o with
    | none => rfl
    | some s =>
      dsimp only
      cases hD : diceParse s with
      | none => rfl
      | some d =>
        dsimp only
        cases hF : attribute_boost_factor e attr with
        | none => simp [h1, h2]
        | some f => simp [h1, h2]

/-- An active character with flat Strength value 18 and no boost. -/
def eMod : Entity := {
  part_Physics_Takeable := some "false"
  hasCombatPart := true
  hasBrainPart := true
  statValue := fun a => if a == "Strength" then some "18" else none }

/-- Claim C2: for every resolved attribute value `v` under any statmode, the
attribute modifier is `(v - 16) // 2` with floor-toward-negative-infinity
division, so that 16 maps to 0, 15 to -1, 18 to 1 and 0 to -8. -/
theorem c2_attribute_modifier (e : Entity) (attr statmode : String) (v : Int)
    (h : attribute_helper_min_max_or_avg e attr statmode = .ok (some v)) :
    attribute_helper_mod e attr statmode = .ok (some ((v - 16).fdiv 2)) ∧
    (16 - 16 : Int).fdiv 2 = 0 ∧ (15 - 16 : Int).fdiv 2 = -1 ∧
    (18 - 16 : Int).fdiv 2 = 1 ∧ (0 - 16 : Int).fdiv 2 = -8 := by
  refine ⟨?_, by decide, by decide, by decide, by decide⟩
  unfold attribute_helper_mod
  by_cases h1 : (statmode == "min") = true
  · rw [if_pos h1]
    rw [eq_of_beq h1] at h
    rw [h]
  · rw [if_neg h1]
    by_cases h2 : (statmode == "max") = true
    · rw [if_pos h2]
      rw [eq_of_beq h2] at h
      rw [h]
    · rw [if_neg h2]
      rw [min_max_or_avg_mode_default e attr statmode (by simpa using h1)
        (by simpa using h2)] at h
      rw [h]

/-- Witness for C2: the flat-18 character resolves to 18 and modifier 1. -/
theorem c2_witness :
    attribute_helper_min_max_or_avg eMod "Strength" "avg" = .ok (some 18) ∧
    attribute_helper_mod eMod "Strength" "avg" = .ok (some 1) := by
  have h : attribute_helper_min_max_or_avg eMod "Strength" "avg" = .ok (some 18) := rfl
  refine ⟨h, ?_⟩
  have hm := (c2_attribute_modifier eMod "Strength" "avg" 18 h).1
  rw [hm]
  simp only [Except.ok.injEq, Option.some.injEq]
  decide

/-- An active character with Agility sValue "10" and Boost tier -2. -/
def eC3 : Entity := {
  part_Physics_Takeable := some "false"
  hasCombatPart := true
  hasBrainPart := true
  statSValue := fun a => if a == "Agility" then some "10" else none
  statValue := fun a => if a == "Level" then some "1" else none
  statBoost := fun a => if a == "Agility" then some "-2" else none }

/-- Claim C3, as frozen, is refuted at a concrete input: for Boost tier -2
the code computes `0.20*(-2) + 1.0 = 3/5` (a downscale), not the claimed
`0.20*|-2| + 1.0 = 7/5`. -/
theorem c3_counterexample :
    attribute_boost_factor eC3 "Agility" = some ((1/5 : ℚ) * ((-2 : Int) : ℚ) + 1) ∧
    (1/5 : ℚ) * ((-2 : Int) : ℚ) + 1 = 3/5 ∧
    (1/5 : ℚ) * 2 + 1 = 7/5 ∧ (3/5 : ℚ) ≠ 7/5 :=
  ⟨rfl, by norm_num, by norm_num, by norm_num⟩

/-- Claim C3 as amended: the boost factor is `0.25*t + 1.0` for a positive
tier and the signed `0.20*t + 1.0` for a non-positive tier (negative tiers
scale down); no factor applies without a level-scaled raw value. -/
theorem c3_boost_factor (e : Entity) (attr : String) (t : Int)
    (hA : active_or_inactive_character e = 1)
    (hB : (e.statBoost attr).bind strToInt = some t)
    (hM : (e.role == some "Minion" && STAT_NAMES.contains attr) = false) :
    (truthyS (e.statSValue attr) = true →
      attribute_boost_factor e attr =
        some (if t > 0 then (1/4 : ℚ) * t + 1 else (1/5 : ℚ) * t + 1)) ∧
    (truthyS (e.statSValue attr) = false → attribute_boost_factor e attr = none) := by
  constructor
  · intro hT
    unfold attribute_boost_factor
    rw [hA, hB]
    have hM' : ¬(e.role = some "Minion" ∧ attr ∈ STAT_NAMES) := by simpa using hM
    simp [hT, hM']
    split <;> rfl
  · intro hT
    unfold attribute_boost_factor
    rw [hA, hB]
    simp [hT]

/-- Witness for C3: the tier -2 entity receives the signed factor. -/
theorem c3_witness :
    attribute_boost_factor eC3 "Agility" =
      some (if (-2 : Int) > 0 then (1/4 : ℚ) * ((-2 : Int) : ℚ) + 1
            else (1/5 : ℚ) * ((-2 : Int) : ℚ) + 1) :=
  (c3_boost_factor eC3 "Agility" (-2) (by decide) (by decide) (by decide)).1 (by decide)

/-- Claim C4: when computing a character's aggregate AV, placeholder
inventory names are skipped; an item worn on the Body slot is not added once
a body-slot mutation AV bonus fired; a non-Body item is always added; and
the aggregate is the base AV stat plus mutation bonuses plus the inventory
contributions so computed. -/
theorem c4_av_inventory (q : String → Option Entity) (n : Nat) (e : Entity)
    (flag : Bool) (nm : String) (rest : List String) (item : Entity)
    (v r base mb inv : Int) (bf : Bool) :
    (markerName nm = true →
      invLoop q (fun it => av q n it) flag (nm :: rest) =
        invLoop q (fun it => av q n it) flag rest) ∧
    (q nm = some item → av q n item = .ok (some v) → wornon item = some "Body" →
      invLoop q (fun it => av q n it) true (nm :: rest) =
        invLoop q (fun it => av q n it) true rest) ∧
    (markerName nm = false → q nm = some item → av q n item = .ok (some v) →
      wornon item ≠ some "Body" →
      invLoop q (fun it => av q n it) flag rest = .ok r →
      invLoop q (fun it => av q n it) flag (nm :: rest) = .ok (v + r)) ∧
    (active_or_inactive_character e > 0 → pyInt (e.statValue "AV") = .ok base →
      avMutations e.mutation = .ok (mb, bf) →
      invLoop q (fun it => av q n it) bf e.inventory = .ok inv →
      av q (n + 1) e = .ok (some (base + mb + inv))) := by
  refine ⟨?_, ?_, ?_, ?_⟩
  · intro hmk
    simp only [invLoop, hmk]
    rfl
  · intro hq hav hw
    by_cases hmk : markerName nm = true
    · simp only [invLoop, hmk]
      rfl
    · have hmk' : markerName nm = false := by simpa using hmk
      have hww : (wornon item != some "Body") = false := by
        rw [hw]; rfl
      simp only [invLoop, hmk', hq, hav, hww, Bool.not_true, Bool.or_false,
        Bool.and_false]
      cases hrest : invLoop q (fun it => av q n it) true rest with
      | error err => simp
      | ok r0 => simp
  · intro hmk hq hav hw hrest
    have hww : (wornon item != some "Body") = true := by
      simpa using hw
    simp only [invLoop, hmk, hq, hav, hrest, hww, Bool.or_true, Bool.and_true]
    by_cases hv : v = 0
    · subst hv; simp
    · have hv' : (v != 0) = true := by simpa using hv
      simp [hv']
  · intro hact hpy hmut hinv
    simp only [av, hact, hpy, hmut, hinv, if_true]

/-- A helmet: armor with AV 3 worn on the Head slot. -/
def eHelm : Entity := {
  name := "helm"
  part_Armor := fun a => if a == "AV" then some "3"
                         else if a == "WornOn" then some "Head" else none }

/-- A breastplate: armor with AV 5 worn on the Body slot. -/
def ePlate : Entity := {
  name := "plate"
  part_Armor := fun a => if a == "AV" then some "5"
                         else if a == "WornOn" then some "Body" else none }

/-- The index for the C4 scenario. -/
def qW : String → Option Entity := fun nm =>
  if nm == "helm" then some eHelm else if nm == "plate" then some ePlate else none

/-- An active character with base AV 2, a Carapace mutation of level 4
(body-slot bonus 5), a placeholder inventory entry, a Body-slot plate and a
Head-slot helmet. -/
def eC4 : Entity := {
  part_Physics_Takeable := some "false"
  hasCombatPart := true
  hasBrainPart := true
  statValue := fun a => if a == "AV" then some "2" else none
  mutation := [("Carapace", "4")]
  inventory := ["*junk", "plate", "helm"] }

/-- Witness for C4: the placeholder is skipped, the Body-slot plate is
excluded by the fired Carapace bonus, the Head-slot helmet is added, and
the aggregate AV is 2 + 5 + 3 = 10. -/
theorem c4_witness : av qW 2 eC4 = .ok (some 10) := by
  have h3 := (c4_av_inventory qW 1 eC4 true "helm" [] eHelm 3 0 2 5 3 true).2.2.1
    rfl rfl rfl (by decide) rfl
  have h2 := (c4_av_inventory qW 1 eC4 true "plate" ["helm"] ePlate 5 0 2 5 3 true).2.1
    rfl rfl rfl
  have h1 := (c4_av_inventory qW 1 eC4 true "*junk" ["plate", "helm"] eHelm 0 0 2 5 3 true).1
    (by decide)
  have hinv : invLoop qW (fun it => av qW 1 it) true ["*junk", "plate", "helm"] = .ok 3 := by
    rw [h1, h2]
    simpa using h3
  have hfinal := (c4_av_inventory qW 1 eC4 true "x" [] eHelm 0 0 2 5 3 true).2.2.2
    (by decide) rfl rfl hinv
  simpa using hfinal

/-- Claim C5: a mentally shielded entity has absent MA regardless of its
other fields; a non-shielded inactive character has MA 0; a non-shielded
active character has MA `4 + MA stat + Willpower modifier`. -/
theorem c5_mental_shield (e : Entity) (m k : Int) (s : String) :
    (hasmentalshield e = true → ma e = .ok none) ∧
    (hasmentalshield e = false → active_or_inactive_character e = 2 →
      ma e = .ok (some 0)) ∧
    (hasmentalshield e = false → active_or_inactive_character e = 1 →
      e.statValue "MA" = some s → strToInt s = some k → s ≠ "" →
      attribute_helper_mod e "Willpower" "avg" = .ok (some m) →
      ma e = .ok (some (4 + k + m))) := by
  refine ⟨?_, ?_, ?_⟩
  · intro h
    simp [ma, h]
  · intro h hact
    simp [ma, h, hact]
  · intro h hact hMA hk hne hmod
    unfold ma
    rw [h, hact]
    have htr : truthyS (e.statValue "MA") = true := by
      rw [hMA]
      simpa [truthyS] using hne
    have hpy : pyInt (e.statValue "MA") = .ok k := by
      rw [hMA]
      unfold pyInt
      dsimp only
      rw [hk]
    simp only [htr, if_true, hpy, hmod]
    norm_num

/-- A mentally shielded active character with MA and Willpower fields
present. -/
def eC5s : Entity := {
  part_Physics_Takeable := some "false"
  hasCombatPart := true
  hasBrainPart := true
  hasMentalShieldPart := true
  statValue := fun a => if a == "MA" then some "5"
                        else if a == "Willpower" then some "18" else none }

/-- An inactive character (not takeable, no combat part). -/
def eC5i : Entity := {
  part_Physics_Takeable := some "false" }

/-- An active, non-shielded character with MA stat 2 and Willpower 18. -/
def eC5a : Entity := {
  part_Physics_Takeable := some "false"
  hasCombatPart := true
  hasBrainPart := true
  statValue := fun a => if a == "MA" then some "2"
                        else if a == "Willpower" then some "18" else none }

/-- Witness for C5: the shielded entity has absent MA despite its stat
fields, the inactive one has 0, and the active one has 4 + 2 + 1 = 7. -/
theorem c5_witness :
    ma eC5s = .ok none ∧ ma eC5i = .ok (some 0) ∧ ma eC5a = .ok (some 7) := by
  refine ⟨(c5_mental_shield eC5s 0 0 "").1 rfl,
    (c5_mental_shield eC5i 0 0 "").2.1 rfl rfl, ?_⟩
  have h := (c5_mental_shield eC5a 1 2 "2").2.2 rfl rfl rfl rfl (by decide) rfl
  simpa using h

/-- An active character whose level field is the range "18-29", with an XP
marker and a Strength sValue. -/
def eC6 : Entity := {
  part_Physics_Takeable := some "false"
  hasCombatPart := true
  hasBrainPart := true
  statSValue := fun a => if a == "Level" then some "18-29"
                         else if a == "Strength" then some "20" else none
  statValue := fun a => if a == "XPValue" then some "*XP" else none }

/-- Claim C6, as frozen, is refuted at a concrete input: with level "18-29"
the claim demands an XP value computed at the effective level 18 (180 for
the default Minion role), but the code's xpvalue yields absent for a
range-valued level. -/
theorem c6_counterexample :
    xpvalue eC6 = .ok none ∧
    ((Except.ok none : Except PyErr (Option Int)) ≠ Except.ok (some 180)) :=
  ⟨rfl, by simp⟩

/-- Claim C6 as amended: for a range-valued level field, attribute
resolution and the tier computation recover locally by taking the first
number of the range as the effective level (tier = lowerBound // 5), while
the XP-value computation instead resolves to absent; no computation is
fatal. -/
theorem c6_level_range (e : Entity) (attr sv lvs : String) (nLvl : Int)
    (hA : active_or_inactive_character e = 1)
    (hsv : e.statSValue attr = some sv) (hne : sv ≠ "")
    (hlv : lv e = some lvs) (hbad : strToInt lvs = none)
    (hfst : parseIntL ((splitOnChar '-' lvs.data).headD []) = some nLvl)
    (htag : e.tierTagSpecified = false) (hbits : e.bitsSpecified = false) :
    attribute_helper e attr = .ok (some (sValueResolve sv nLvl)) ∧
    tier e = .ok (some (nLvl.fdiv 5)) ∧
    xpvalue e = .ok none := by
  have hlevel : attributeLevel e = .ok nLvl := by
    unfold attributeLevel
    rw [hlv]
    dsimp only
    rw [hbad]
    dsimp only
    rw [hfst]
  refine ⟨?_, ?_, ?_⟩
  · unfold attribute_helper
    rw [hA]
    have htr : truthyS (some sv) = true := by
      simpa [truthyS] using hne
    simp only [hsv, htr, if_true, hlevel]
    rfl
  · unfold tier
    simp only [htag, hbits, Bool.not_false, if_true, Bool.false_eq_true, if_false]
    rw [hlv]
    dsimp only
    rw [hbad]
    dsimp only
    rw [hfst]
  · unfold xpvalue
    rw [hlv]
    dsimp only [Option.bind]
    rw [hbad]

/-- Witness for C6: the "18-29" entity resolves Strength at effective
level 18, has tier 18 // 5 = 3, and an absent XP value. -/
theorem c6_witness :
    attribute_helper eC6 "Strength" = .ok (some (sValueResolve "20" 18)) ∧
    tier eC6 = .ok (some 3) ∧ xpvalue eC6 = .ok none := by
  have h := c6_level_range eC6 "Strength" "20" "18-29" 18 (by decide) rfl (by decide)
    rfl (by decide) (by decide) rfl rfl
  refine ⟨h.1, ?_, h.2.2⟩
  rw [h.2.1]
  simp only [Except.ok.injEq, Option.some.injEq]
  decide

/-- An entity with two charge-consuming parts of amounts 5 and 10, no
hardcoded override and no hardcoded reason. -/
def eC7 : Entity := {
  name := "Gizmo"
  parts := [("StunOnHit", { chargeUse := some "5" }),
            ("Teleporter", { chargeUse := some "10" })] }

/-- Claim C7: the charge-used property is the positive-charge sum over
carried parts (ProgrammableRecoiler excluded), replaced by the name-keyed
override when one exists; the 5/10 entity totals 15 and its charge-function
label joins both contributors with bracketed amounts. -/
theorem c7_charge (overrides : List (String × Int)) (e : Entity) (t v : Int) :
    (overrides.lookup e.name = none → sumCharges e.parts = .ok t → 0 < t →
      chargeused overrides e = .ok (some t)) ∧
    (overrides.lookup e.name = some v → sumCharges e.parts = .ok t → 0 < v →
      chargeused overrides e = .ok (some v)) ∧
    chargeused [] eC7 = .ok (some 15) ∧
    chargefunction [] [] eC7 = .ok (some "Stun effect [5], Teleportation [10]") := by
  refine ⟨?_, ?_, rfl, rfl⟩
  · intro hlk hsum ht
    unfold chargeused
    rw [hsum]
    dsimp only
    rw [hlk]
    dsimp only
    rw [if_pos ht]
  · intro hlk hsum hv
    unfold chargeused
    rw [hsum]
    dsimp only
    rw [hlk]
    dsimp only
    rw [if_pos hv]

/-- Witness for C7: the 5/10 entity with empty override table. -/
theorem c7_witness : chargeused [] eC7 = .ok (some 15) :=
  (c7_charge [] eC7 15 0).1 rfl rfl (by decide)

/-- The empty entity index. -/
def qEmpty : String → Option Entity := fun _ => none

/-- An active character with no AV stat at any level of the inheritance
chain. -/
def eC8a : Entity := {
  part_Physics_Takeable := some "false"
  hasCombatPart := true
  hasBrainPart := true }

/-- An active, mobile character with a DV stat but no Agility stat at any
level of the inheritance chain. -/
def eC8b : Entity := {
  part_Physics_Takeable := some "false"
  hasCombatPart := true
  hasBrainPart := true
  statValue := fun a => if a == "DV" then some "6" else none }

/-- Claim C8 describes intended behavior the code does not implement: a
character with an absent base AV stat makes `av` raise `TypeError`
(`int(None)`), and an absent Agility stat makes `dv` raise `TypeError`
(`dv += None`), instead of resolving to absent as the module's own contract
("properties all return None implicitly if the property is not applicable")
requires. -/
theorem c8_absent_stat_crash :
    eC8a.statValue "AV" = none ∧
    av qEmpty 2 eC8a = .error .typeError ∧
    attribute_helper_mod eC8b "Agility" "avg" = .ok none ∧
    dv qEmpty 2 eC8b = .error .typeError :=
  ⟨by decide, rfl, rfl, rfl⟩

/-- An active character with Speed stat 100 and a HeightenedSpeed mutation
of level 1. -/
def eC9 : Entity := {
  part_Physics_Takeable := some "false"
  hasCombatPart := true
  hasBrainPart := true
  statValue := fun a => if a == "Speed" then some "100" else none
  mutation := [("HeightenedSpeed", "1")] }

/-- An active character with no Speed stat and a ColdBlooded mutation. -/
def eC9b : Entity := {
  part_Physics_Takeable := some "false"
  hasCombatPart := true
  hasBrainPart := true
  mutation := [("ColdBlooded", "1")] }

/-- Claim C9 states the intended combination `S + (2L + 13)`, but the
misparenthesized conditional expression in the source returns the bare
Speed stat whenever it is present: the HeightenedSpeed level-1 entity gets
quickness 100, not 100 + 15; only with the stat absent does the mutation
sum apply (ColdBlooded: 100 - 10 = 90). -/
theorem c9_quickness_bug :
    quickness eC9 = .ok (some 100) ∧
    (100 : Int) ≠ 100 + (2 * 1 + 13) ∧
    quickness eC9b = .ok (some 90) :=
  ⟨rfl, by decide, rfl⟩

/-- A missile weapon whose magazine loader names the "shot" projectile. -/
def eGun : Entity := {
  hasMissileWeaponPart := true
  loaderProjectile := fun p => if p == "MagazineAmmoLoader" then some "shot" else none }

/-- A missile weapon with no resolvable projectile loader. -/
def eGunNoAmmo : Entity := {
  hasMissileWeaponPart := true }

/-- An omniphase projectile entity. -/
def eShot : Entity := {
  name := "shot"
  hasOmniphaseProjectilePart := true }

/-- The index for the C10 scenario. -/
def qProj : String → Option Entity := fun nm =>
  if nm == "shot" then some eShot else none

/-- Claim C10: when the projectile lookup yields an entity, the property is
True exactly when that projectile specifies the OmniphaseProjectile part or
Omniphase tag (and absent otherwise); when the lookup yields absent, the
evaluation is undefined — it dereferences the absent result
(`AttributeError`). -/
theorem c10_omniphase (q : String → Option Entity) (e p : Entity) :
    (projectile_object q e = .ok (some p) →
      omniphaseprojectile q e =
        (if p.hasOmniphaseProjectilePart || p.hasOmniphaseTag then .ok (some true)
         else .ok none)) ∧
    (projectile_object q e = .ok (some p) →
      (omniphaseprojectile q e = .ok (some true) ↔
        (p.hasOmniphaseProjectilePart || p.hasOmniphaseTag) = true)) ∧
    (projectile_object q e = .ok none →
      omniphaseprojectile q e = .error .attributeError) := by
  refine ⟨?_, ?_, ?_⟩
  · intro hp
    unfold omniphaseprojectile
    rw [hp]
  · intro hp
    unfold omniphaseprojectile
    rw [hp]
    dsimp only
    by_cases hb : (p.hasOmniphaseProjectilePart || p.hasOmniphaseTag) = true
    · simp [hb]
    · have hb' : (p.hasOmniphaseProjectilePart || p.hasOmniphaseTag) = false := by
        simpa using hb
      simp [hb']
  · intro hp
    unfold omniphaseprojectile
    rw [hp]

/-- Witness for C10: the loaded gun resolves its omniphase projectile to
True; the loaderless gun's property evaluation raises. -/
theorem c10_witness :
    omniphaseprojectile qProj eGun = .ok (some true) ∧
    omniphaseprojectile qProj eGunNoAmmo = .error .attributeError := by
  constructor
  · have h := (c10_omniphase qProj eGun eShot).1 rfl
    simpa using h
  · exact (c10_omniphase qProj eGunNoAmmo eShot).2.2 rfl
